import Mathlib

/-!
Verification of the callback-identity reconciliation core of
react-native-carplay, translated from
src/packages/react-native-carplay/src/templates/android/AndroidNavigationBaseTemplate.ts.

The embedding is parametric in the callback type kappa: callbacks are opaque
values whose only observable is identity, matching JS function values that the
code never calls during a walk.  The JS field-presence distinctions are kept:
an action's id field is modelled as Option (Option String), where
none means the id key is absent from the object, some none means the key is
present with value null/undefined, and some (some s) means an explicit string
id.  Likewise every top-level key of the clean configuration is modelled as an
Option (Option _): the outer layer is key presence in the returned object, the
inner layer is the undefined-ness of its value.

During a walk the source mutates two pieces of state: the local callbackIds
array (push only) and this.pressableCallbacks (assignment only, never read
until the final prune).  The embedding therefore threads the id-generator
counter through the walk and accumulates the pushed ids and the registry
writes as lists in the source's processing order (pane actions, buttons,
actions, mapButtons, navigateAction); the writes are applied sequentially to
the registry and the prune filter is applied afterwards, which is observably
identical to the in-place mutation because nothing reads the registry
mid-walk.
-/

/-- A node of any of the five interactive slots (AndroidAction, and
AndroidGridButton with optional id).  The two types named in the source are
imported from interfaces not shipped here; modelled from the spec, section 3:
a node has an optional identifier and an optional callback, all other fields
are opaque pass-through data (collected in the payload field).  The field
idField is Option (Option String) so that the source's two distinct runtime
checks, field presence and null-ness, both remain expressible. -/
structure AndroidAction (kappa : Type) where
  idField : Option (Option String)
  onPress : Option kappa
  payload : Nat
deriving DecidableEq, Repr

/-- Raw pane of the incoming configuration: an optional nested action list
plus opaque other fields (lines 127, 135-155 of the source). -/
structure RawPane (kappa : Type) where
  actions : Option (List (AndroidAction kappa))
  paneRest : Nat
deriving DecidableEq, Repr

/-- The raw configuration accepted by parseConfig (lines 122-129): five
optional interactive slots plus opaque pass-through fields. -/
structure RawConfig (kappa : Type) where
  actions : Option (List (AndroidAction kappa))
  mapButtons : Option (List (AndroidAction kappa))
  navigateAction : Option (AndroidAction kappa)
  pane : Option (RawPane kappa)
  buttons : Option (List (AndroidAction kappa))
  rest : Nat
deriving DecidableEq, Repr

/-- Pane of the clean configuration: the object literal on lines 136-154
always writes the actions key, whose value is undefined when the input pane
had no action list (optional chaining), so a single Option suffices. -/
structure PaneOut (kappa : Type) where
  actions : Option (List (AndroidAction kappa))
  paneRest : Nat
deriving DecidableEq, Repr

/-- The clean configuration assembled on lines 172-230.  Every slot field is
Option (Option _): the outer Option is presence of the key in the returned
JS object, the inner Option is whether its value is undefined.  The object
literal on line 178 always writes the pane and buttons keys (possibly with
value undefined), while the actions, mapButtons and navigateAction keys are
written only inside the conditionals on lines 180, 198 and 216-229. -/
structure CleanConfig (kappa : Type) where
  actionsKey : Option (Option (List (AndroidAction kappa)))
  mapButtonsKey : Option (Option (List (AndroidAction kappa)))
  navigateActionKey : Option (Option (AndroidAction kappa))
  paneKey : Option (Option (PaneOut kappa))
  buttonsKey : Option (Option (List (AndroidAction kappa)))
  rest : Nat
deriving DecidableEq, Repr

/-- Modelled from the spec: getCallbackActionId, the Identifier Generator of
section 4.1, is imported from interfaces/Action.ts which is not part of the
sources here.  The spec requires a process-unique non-empty string per call;
it is modelled as a monotone counter rendered into a string, the counter
being threaded through the walk. -/
def getCallbackActionId (n : Nat) : String :=
  "cb" ++ toString n

/-- Persistent per-template state across parseConfig calls: the id-generator
counter (process state of the Identifier Generator) and the callback registry
this.pressableCallbacks (lines 79-81), modelled as an insertion-ordered
association list, the shape of a JS object's entries. -/
structure TemplateState (kappa : Type) where
  counter : Nat
  pressableCallbacks : List (String × kappa)
deriving DecidableEq, Repr

/-- JS object key lookup, this.pressableCallbacks[id]: first entry whose key
matches (keys are unique in any reachable registry). -/
def lookupId {kappa : Type} : List (String × kappa) → String → Option kappa
  | [], _ => none
  | p :: ps, k => if p.1 = k then some p.2 else lookupId ps k

/-- JS Array.prototype.includes on a list of ids (line 233). -/
def includesId : List String → String → Bool
  | [], _ => false
  | i :: is, k => if i = k then true else includesId is k

/-- JS object key assignment this.pressableCallbacks[id] = onPress: overwrite
in place if the key exists, else append (JS objects preserve insertion
order). -/
def upsert {kappa : Type} : List (String × kappa) → String → kappa → List (String × kappa)
  | [], i, v => [(i, v)]
  | p :: ps, i, v => if p.1 = i then (i, v) :: ps else p :: upsert ps i v

/-- Sequential application of the registry writes collected during a walk, in
processing order. -/
def upsertAll {kappa : Type} (r : List (String × kappa)) : List (String × kappa) → List (String × kappa)
  | [] => r
  | p :: ps => upsertAll (upsert r p.1 p.2) ps

/-- Keys of a registry, in entry order. -/
def keysOf {kappa : Type} (r : List (String × kappa)) : List String :=
  r.map (fun p => p.1)

/-- Result of processing one slot: the rewritten slot content, the advanced
generator counter, the ids pushed onto callbackIds, and the registry writes,
both in source order. -/
structure SlotOut (alpha : Type) (kappa : Type) where
  out : alpha
  counter : Nat
  ids : List String
  ups : List (String × kappa)
deriving Repr

/-- One action node of the actions, mapButtons or pane-actions slots
(lines 138-153, 181-195, 199-213; the three blocks are textually identical).
The id is the explicit one when the id key is present, else a fresh one; a
null id returns the node unchanged and contributes nothing; otherwise the id
is pushed, and if an onPress callback is present it is recorded and the
returned descriptor is the node without onPress and with the id written. -/
def normalizeAction {kappa : Type} (n : Nat) (a : AndroidAction kappa) :
    SlotOut (AndroidAction kappa) kappa :=
  match a.idField with
  | some none => ⟨a, n, [], []⟩
  | some (some i) =>
    match a.onPress with
    | none => ⟨a, n, [i], []⟩
    | some f => ⟨{ a with idField := some (some i), onPress := none }, n, [i], [(i, f)]⟩
  | none =>
    let i := getCallbackActionId n
    match a.onPress with
    | none => ⟨a, n + 1, [i], []⟩
    | some f => ⟨{ a with idField := some (some i), onPress := none }, n + 1, [i], [(i, f)]⟩

/-- One grid button (lines 158-169): the id is button.id ?? fresh (null and
undefined alike trigger generation), pushed unconditionally; a button without
onPress is returned unchanged (in particular a generated id is not written
into it), otherwise onPress is removed and the id written. -/
def normalizeButton {kappa : Type} (n : Nat) (b : AndroidAction kappa) :
    SlotOut (AndroidAction kappa) kappa :=
  match b.idField with
  | some (some i) =>
    match b.onPress with
    | none => ⟨b, n, [i], []⟩
    | some f => ⟨{ b with idField := some (some i), onPress := none }, n, [i], [(i, f)]⟩
  | _ =>
    let i := getCallbackActionId n
    match b.onPress with
    | none => ⟨b, n + 1, [i], []⟩
    | some f => ⟨{ b with idField := some (some i), onPress := none }, n + 1, [i], [(i, f)]⟩

/-- The navigateAction node (lines 216-230): on a null id nothing is written
into the clean configuration at all (the assignments sit inside the id-null
guard); otherwise like an action node. -/
def normalizeNavigateAction {kappa : Type} (n : Nat) (a : AndroidAction kappa) :
    SlotOut (Option (AndroidAction kappa)) kappa :=
  match a.idField with
  | some none => ⟨none, n, [], []⟩
  | some (some i) =>
    match a.onPress with
    | none => ⟨some a, n, [i], []⟩
    | some f => ⟨some { a with idField := some (some i), onPress := none }, n, [i], [(i, f)]⟩
  | none =>
    let i := getCallbackActionId n
    match a.onPress with
    | none => ⟨some a, n + 1, [i], []⟩
    | some f => ⟨some { a with idField := some (some i), onPress := none }, n + 1, [i], [(i, f)]⟩

/-- Array.prototype.map over a slot list with the counter threaded left to
right and the pushed ids and registry writes concatenated in order. -/
def normalizeList {kappa : Type}
    (f : Nat → AndroidAction kappa → SlotOut (AndroidAction kappa) kappa) :
    Nat → List (AndroidAction kappa) → SlotOut (List (AndroidAction kappa)) kappa
  | n, [] => ⟨[], n, [], []⟩
  | n, a :: as =>
    let r := f n a
    let rs := normalizeList f r.counter as
    ⟨r.out :: rs.out, rs.counter, r.ids ++ rs.ids, r.ups ++ rs.ups⟩

/-- The pane slot (lines 135-155): absent pane gives undefined; a present
pane keeps its other fields and gets its action list rewritten (undefined
when absent, by optional chaining). -/
def paneSlot {kappa : Type} (n : Nat) :
    Option (RawPane kappa) → SlotOut (Option (PaneOut kappa)) kappa
  | none => ⟨none, n, [], []⟩
  | some p =>
    match p.actions with
    | none => ⟨some ⟨none, p.paneRest⟩, n, [], []⟩
    | some acts =>
      let r := normalizeList normalizeAction n acts
      ⟨some ⟨some r.out, p.paneRest⟩, r.counter, r.ids, r.ups⟩

/-- An optional list slot (buttons on lines 157-170, actions on lines
180-196, mapButtons on lines 198-214): absent stays absent, else the list is
mapped. -/
def optListSlot {kappa : Type}
    (f : Nat → AndroidAction kappa → SlotOut (AndroidAction kappa) kappa) (n : Nat) :
    Option (List (AndroidAction kappa)) → SlotOut (Option (List (AndroidAction kappa))) kappa
  | none => ⟨none, n, [], []⟩
  | some l =>
    let r := normalizeList f n l
    ⟨some r.out, r.counter, r.ids, r.ups⟩

/-- The navigateAction slot (lines 216-230): skipped entirely when absent. -/
def navSlot {kappa : Type} (n : Nat) :
    Option (AndroidAction kappa) → SlotOut (Option (AndroidAction kappa)) kappa
  | none => ⟨none, n, [], []⟩
  | some a => normalizeNavigateAction n a

/-- Everything one parseConfig call computes besides the registry update: the
clean configuration, the advanced counter, the callbackIds array and the
registry writes of the walk, slots processed in source evaluation order:
pane (line 135), buttons (line 157), actions (line 180), mapButtons
(line 198), navigateAction (line 216). -/
structure ParseResult (kappa : Type) where
  clean : CleanConfig kappa
  counter : Nat
  callbackIds : List String
  ups : List (String × kappa)
deriving Repr

/-- The pure part of parseConfig (lines 122-237): processes the five slots in
evaluation order and assembles the clean configuration of lines 172-230.
The pane and buttons keys are always written (line 178); the actions,
mapButtons and navigateAction keys only when their conditionals fire. -/
def parseConfigCore {kappa : Type} (n : Nat) (c : RawConfig kappa) : ParseResult kappa :=
  let rp := paneSlot n c.pane
  let rb := optListSlot normalizeButton rp.counter c.buttons
  let ra := optListSlot normalizeAction rb.counter c.actions
  let rm := optListSlot normalizeAction ra.counter c.mapButtons
  let rn := navSlot rm.counter c.navigateAction
  { clean :=
      { actionsKey := ra.out.map some
        mapButtonsKey := rm.out.map some
        navigateActionKey := rn.out.map some
        paneKey := some rp.out
        buttonsKey := some rb.out
        rest := c.rest }
    counter := rn.counter
    callbackIds := rp.ids ++ (rb.ids ++ (ra.ids ++ (rm.ids ++ rn.ids)))
    ups := rp.ups ++ (rb.ups ++ (ra.ups ++ (rm.ups ++ rn.ups))) }

/-- Modelled from the spec: the base-class parseConfig called on line 236
lives in templates/Template.ts, which is not among the sources here; the
spec describes no transformation of the clean configuration beyond the walk
itself (sections 4.3 and 6), so the base call is the identity. -/
def Template.parseConfig {kappa : Type} (c : CleanConfig kappa) : CleanConfig kappa :=
  c

/-- The full parseConfig method: runs the walk, applies the collected
registry writes in order, and prunes the registry to the keys listed in
callbackIds (lines 232-234), returning the new template state and the clean
configuration. -/
def parseConfig {kappa : Type} (st : TemplateState kappa) (c : RawConfig kappa) :
    TemplateState kappa × CleanConfig kappa :=
  let r := parseConfigCore st.counter c
  let registry :=
    (upsertAll st.pressableCallbacks r.ups).filter (fun p => includesId r.callbackIds p.1)
  (⟨r.counter, registry⟩, Template.parseConfig r.clean)

/-- A buttonPressed event as destructured on line 102: an optional templateId
and a buttonId. -/
structure ButtonPressedEvent where
  templateId : Option String
  buttonId : String
deriving DecidableEq, Repr

/-- The buttonPressed listener body (lines 102-108): look the buttonId up in
this.pressableCallbacks; on a miss return without doing anything, on a hit
invoke the callback.  The result is the invoked callback, none meaning no
invocation; the handler is total, so it never throws.  The typeof guard
always passes in the model because registry values are callbacks by
construction. -/
def handleButtonPressed {kappa : Type} (st : TemplateState kappa)
    (e : ButtonPressedEvent) : Option kappa :=
  match lookupId st.pressableCallbacks e.buttonId with
  | none => none
  | some f => some f

/-! ### Predicates over configurations -/

/-- A node whose id key, when present, holds a string.  The AndroidAction and
AndroidGridButton types (modelled from the spec, section 3: a node has an
explicit string identifier or none) have no null-valued id, so this holds of
every node a TypeScript caller can pass; the guard against a null id on
lines 140, 183, 201 and 219 of the source is only reachable outside it. -/
def wellFormedAction {kappa : Type} (a : AndroidAction kappa) : Bool :=
  match a.idField with
  | some none => false
  | _ => true

/-- Well-formedness of an optional node list. -/
def wellFormedOptList {kappa : Type} : Option (List (AndroidAction kappa)) → Bool
  | none => true
  | some l => l.all wellFormedAction

/-- Every node of every one of the five interactive slots is well-formed. -/
def wellFormedConfig {kappa : Type} (c : RawConfig kappa) : Bool :=
  wellFormedOptList c.actions && wellFormedOptList c.mapButtons &&
    (match c.navigateAction with | none => true | some a => wellFormedAction a) &&
    (match c.pane with | none => true | some p => wellFormedOptList p.actions) &&
    wellFormedOptList c.buttons

/-- No node of the list carries a callback. -/
def callbackFreeList {kappa : Type} (l : List (AndroidAction kappa)) : Bool :=
  l.all (fun a => a.onPress.isNone)

/-- No node behind an optional slot key carries a callback. -/
def callbackFreeKey {kappa : Type} : Option (Option (List (AndroidAction kappa))) → Bool
  | some (some l) => callbackFreeList l
  | _ => true

/-- No node anywhere in a clean configuration carries a callback. -/
def cleanCallbackFree {kappa : Type} (cc : CleanConfig kappa) : Bool :=
  callbackFreeKey cc.actionsKey && callbackFreeKey cc.mapButtonsKey &&
    (match cc.navigateActionKey with | some (some a) => a.onPress.isNone | _ => true) &&
    (match cc.paneKey with
     | some (some p) => (match p.actions with | some l => callbackFreeList l | none => true)
     | _ => true) &&
    callbackFreeKey cc.buttonsKey

/-- A node carrying an explicit string identifier. -/
def actionExplicitId {kappa : Type} (a : AndroidAction kappa) : Bool :=
  match a.idField with
  | some (some _) => true
  | _ => false

/-- Explicitness of an optional node list. -/
def explicitOptList {kappa : Type} : Option (List (AndroidAction kappa)) → Bool
  | none => true
  | some l => l.all actionExplicitId

/-- Every interactive node of the configuration carries an explicit
identifier. -/
def allExplicitIds {kappa : Type} (c : RawConfig kappa) : Bool :=
  (match c.pane with | none => true | some p => explicitOptList p.actions) &&
    explicitOptList c.buttons && explicitOptList c.actions && explicitOptList c.mapButtons &&
    (match c.navigateAction with | none => true | some a => actionExplicitId a)

/-- The id fields of a node list, in order. -/
def idFieldsOfList {kappa : Type} (l : List (AndroidAction kappa)) : List (Option (Option String)) :=
  l.map (fun a => a.idField)

/-- The id fields behind an optional node list. -/
def idFieldsOfOpt {kappa : Type} : Option (List (AndroidAction kappa)) → List (Option (Option String))
  | none => []
  | some l => idFieldsOfList l

/-- The id fields of the nested actions of an optional raw pane. -/
def paneFieldsOfRaw {kappa : Type} : Option (RawPane kappa) → List (Option (Option String))
  | none => []
  | some p => idFieldsOfOpt p.actions

/-- The id field of an optional raw navigateAction node. -/
def navFieldsOfRaw {kappa : Type} : Option (AndroidAction kappa) → List (Option (Option String))
  | none => []
  | some a => [a.idField]

/-- The id fields of all interactive nodes of a raw configuration, in
processing order (pane actions, buttons, actions, mapButtons,
navigateAction). -/
def rawIdFields {kappa : Type} (c : RawConfig kappa) : List (Option (Option String)) :=
  paneFieldsOfRaw c.pane ++ idFieldsOfOpt c.buttons ++ idFieldsOfOpt c.actions ++
    idFieldsOfOpt c.mapButtons ++ navFieldsOfRaw c.navigateAction

/-- The id fields behind an optional slot key of a clean configuration. -/
def idFieldsOfKey {kappa : Type} :
    Option (Option (List (AndroidAction kappa))) → List (Option (Option String))
  | some (some l) => idFieldsOfList l
  | _ => []

/-- The id fields of the nested actions behind the pane key of a clean
configuration. -/
def paneFieldsOfKey {kappa : Type} :
    Option (Option (PaneOut kappa)) → List (Option (Option String))
  | some (some p) => idFieldsOfOpt p.actions
  | _ => []

/-- The id field behind the navigateAction key of a clean configuration. -/
def navFieldsOfKey {kappa : Type} :
    Option (Option (AndroidAction kappa)) → List (Option (Option String))
  | some (some a) => [a.idField]
  | _ => []

/-- The id fields of all interactive nodes of a clean configuration, in the
same processing order as rawIdFields. -/
def cleanIdFields {kappa : Type} (cc : CleanConfig kappa) : List (Option (Option String)) :=
  paneFieldsOfKey cc.paneKey ++ idFieldsOfKey cc.buttonsKey ++ idFieldsOfKey cc.actionsKey ++
    idFieldsOfKey cc.mapButtonsKey ++ navFieldsOfKey cc.navigateActionKey

/-- The id fields of the pane produced by the pane slot of a walk. -/
def paneFieldsOfOut {kappa : Type} : Option (PaneOut kappa) → List (Option (Option String))
  | none => []
  | some p => idFieldsOfOpt p.actions

/-- The id field of the node produced by the navigateAction slot of a walk. -/
def navFieldsOfOut {kappa : Type} : Option (AndroidAction kappa) → List (Option (Option String))
  | none => []
  | some a => [a.idField]

/-! ### Association-list lemmas for the registry -/

theorem lookupId_upsert {kappa : Type} (r : List (String × kappa)) (i k : String) (v : kappa) :
    lookupId (upsert r i v) k = if i = k then some v else lookupId r k := by
  induction r with
  | nil => simp only [upsert, lookupId]
  | cons p ps ih =>
    simp only [upsert]
    by_cases h1 : p.1 = i
    · simp only [if_pos h1, lookupId]
      by_cases h2 : i = k
      · simp [h2]
      · have h3 : ¬ p.1 = k := by rw [h1]; exact h2
        simp [h2, h3]
    · simp only [if_neg h1, lookupId]
      by_cases h3 : p.1 = k
      · have h2 : ¬ i = k := fun h => h1 (by rw [h3, h])
        simp [h3, h2]
      · simp [h3, ih]

theorem includesId_eq_true_iff (ids : List String) (k : String) :
    includesId ids k = true ↔ k ∈ ids := by
  induction ids with
  | nil => simp [includesId]
  | cons i is ih =>
    by_cases h : i = k
    · simp [includesId, h]
    · have h2 : ¬ k = i := fun hh => h hh.symm
      simp [includesId, h, ih, h2]

theorem lookupId_filter_includes {kappa : Type} (r : List (String × kappa)) (ids : List String)
    (k : String) (h : includesId ids k = true) :
    lookupId (r.filter (fun p => includesId ids p.1)) k = lookupId r k := by
  induction r with
  | nil => simp
  | cons p ps ih =>
    by_cases h1 : p.1 = k
    · simp [List.filter_cons, h1, h, lookupId]
    · by_cases h2 : includesId ids p.1 = true
      · simp [List.filter_cons, h2, lookupId, h1, ih]
      · simp [List.filter_cons, h2, lookupId, h1, ih]

theorem keysOf_cons {kappa : Type} (p : String × kappa) (ps : List (String × kappa)) :
    keysOf (p :: ps) = p.1 :: keysOf ps := rfl

theorem keysOf_append {kappa : Type} (r s : List (String × kappa)) :
    keysOf (r ++ s) = keysOf r ++ keysOf s := by
  simp [keysOf]

theorem mem_keysOf_upsert {kappa : Type} (r : List (String × kappa)) (i k : String) (v : kappa) :
    k ∈ keysOf (upsert r i v) ↔ k = i ∨ k ∈ keysOf r := by
  induction r with
  | nil => simp [upsert, keysOf]
  | cons p ps ih =>
    simp only [upsert]
    by_cases h1 : p.1 = i
    · simp only [if_pos h1, keysOf_cons, List.mem_cons]
      rw [h1]
      tauto
    · simp only [if_neg h1, keysOf_cons, List.mem_cons, ih]
      tauto

theorem mem_keysOf_upsertAll {kappa : Type} (ps r : List (String × kappa)) (k : String) :
    k ∈ keysOf (upsertAll r ps) ↔ k ∈ keysOf r ∨ k ∈ keysOf ps := by
  induction ps generalizing r with
  | nil => simp [upsertAll, keysOf]
  | cons p ps ih =>
    simp only [upsertAll, keysOf_cons, List.mem_cons]
    rw [ih, mem_keysOf_upsert]
    tauto

theorem mem_keysOf_filter_includes {kappa : Type} (r : List (String × kappa))
    (ids : List String) (k : String) :
    k ∈ keysOf (r.filter (fun p => includesId ids p.1)) ↔
      includesId ids k = true ∧ k ∈ keysOf r := by
  induction r with
  | nil => simp [keysOf]
  | cons p ps ih =>
    simp only [List.filter_cons]
    by_cases h2 : includesId ids p.1 = true
    · simp only [if_pos h2, keysOf_cons, List.mem_cons, ih]
      constructor
      · rintro (h | ⟨ha, hb⟩)
        · exact ⟨by rw [h]; exact h2, Or.inl h⟩
        · exact ⟨ha, Or.inr hb⟩
      · rintro ⟨ha, hb | hb⟩
        · exact Or.inl hb
        · exact Or.inr ⟨ha, hb⟩
    · simp only [if_neg h2, ih, keysOf_cons, List.mem_cons]
      constructor
      · rintro ⟨ha, hb⟩
        exact ⟨ha, Or.inr hb⟩
      · rintro ⟨ha, hb | hb⟩
        · rw [hb] at ha
          exact absurd ha h2
        · exact ⟨ha, hb⟩

/-! ### Every registry write of a walk is covered by a pushed callbackId:
in every branch of the source that assigns this.pressableCallbacks[id], the
statement callbackIds.push(id) has already run for the same id. -/

theorem ups_sub_ids_normalizeAction {kappa : Type} (n : Nat) (a : AndroidAction kappa)
    (k : String) (h : k ∈ keysOf (normalizeAction n a).ups) :
    k ∈ (normalizeAction n a).ids := by
  obtain ⟨idf, op, pl⟩ := a
  cases idf with
  | none =>
    cases op with
    | none => simp [normalizeAction, keysOf] at h
    | some f => simpa [normalizeAction, keysOf] using h
  | some oi =>
    cases oi with
    | none => simp [normalizeAction, keysOf] at h
    | some i =>
      cases op with
      | none => simp [normalizeAction, keysOf] at h
      | some f => simpa [normalizeAction, keysOf] using h

theorem ups_sub_ids_normalizeButton {kappa : Type} (n : Nat) (b : AndroidAction kappa)
    (k : String) (h : k ∈ keysOf (normalizeButton n b).ups) :
    k ∈ (normalizeButton n b).ids := by
  obtain ⟨idf, op, pl⟩ := b
  cases idf with
  | none =>
    cases op with
    | none => simp [normalizeButton, keysOf] at h
    | some f => simpa [normalizeButton, keysOf] using h
  | some oi =>
    cases oi with
    | none =>
      cases op with
      | none => simp [normalizeButton, keysOf] at h
      | some f => simpa [normalizeButton, keysOf] using h
    | some i =>
      cases op with
      | none => simp [normalizeButton, keysOf] at h
      | some f => simpa [normalizeButton, keysOf] using h

theorem ups_sub_ids_normalizeNavigateAction {kappa : Type} (n : Nat) (a : AndroidAction kappa)
    (k : String) (h : k ∈ keysOf (normalizeNavigateAction n a).ups) :
    k ∈ (normalizeNavigateAction n a).ids := by
  obtain ⟨idf, op, pl⟩ := a
  cases idf with
  | none =>
    cases op with
    | none => simp [normalizeNavigateAction, keysOf] at h
    | some f => simpa [normalizeNavigateAction, keysOf] using h
  | some oi =>
    cases oi with
    | none => simp [normalizeNavigateAction, keysOf] at h
    | some i =>
      cases op with
      | none => simp [normalizeNavigateAction, keysOf] at h
      | some f => simpa [normalizeNavigateAction, keysOf] using h

theorem ups_sub_ids_normalizeList {kappa : Type}
    (f : Nat → AndroidAction kappa → SlotOut (AndroidAction kappa) kappa)
    (hf : ∀ n a k, k ∈ keysOf (f n a).ups → k ∈ (f n a).ids) :
    ∀ (n : Nat) (l : List (AndroidAction kappa)) (k : String),
      k ∈ keysOf (normalizeList f n l).ups → k ∈ (normalizeList f n l).ids := by
  intro n l
  induction l generalizing n with
  | nil => intro k h; simp [normalizeList, keysOf] at h
  | cons a as ih =>
    intro k h
    simp only [normalizeList, keysOf_append, List.mem_append] at h ⊢
    rcases h with h | h
    · exact Or.inl (hf n a k h)
    · exact Or.inr (ih _ k h)

theorem ups_sub_ids_paneSlot {kappa : Type} (n : Nat) (op : Option (RawPane kappa))
    (k : String) (h : k ∈ keysOf (paneSlot n op).ups) : k ∈ (paneSlot n op).ids := by
  cases op with
  | none => simp [paneSlot, keysOf] at h
  | some p =>
    cases hpa : p.actions with
    | none => simp [paneSlot, hpa, keysOf] at h
    | some acts =>
      simp only [paneSlot, hpa] at h ⊢
      exact ups_sub_ids_normalizeList normalizeAction ups_sub_ids_normalizeAction n acts k h

theorem ups_sub_ids_optListSlot {kappa : Type}
    (f : Nat → AndroidAction kappa → SlotOut (AndroidAction kappa) kappa)
    (hf : ∀ n a k, k ∈ keysOf (f n a).ups → k ∈ (f n a).ids)
    (n : Nat) (ol : Option (List (AndroidAction kappa)))
    (k : String) (h : k ∈ keysOf (optListSlot f n ol).ups) : k ∈ (optListSlot f n ol).ids := by
  cases ol with
  | none => simp [optListSlot, keysOf] at h
  | some l =>
    simp only [optListSlot] at h ⊢
    exact ups_sub_ids_normalizeList f hf n l k h

theorem ups_sub_ids_navSlot {kappa : Type} (n : Nat) (oa : Option (AndroidAction kappa))
    (k : String) (h : k ∈ keysOf (navSlot n oa).ups) : k ∈ (navSlot n oa).ids := by
  cases oa with
  | none => simp [navSlot, keysOf] at h
  | some a => exact ups_sub_ids_normalizeNavigateAction n a k h

theorem ups_sub_ids_core {kappa : Type} (n : Nat) (c : RawConfig kappa) (k : String)
    (h : k ∈ keysOf (parseConfigCore n c).ups) : k ∈ (parseConfigCore n c).callbackIds := by
  simp only [parseConfigCore, keysOf_append, List.mem_append] at h ⊢
  rcases h with h | h | h | h | h
  · exact Or.inl (ups_sub_ids_paneSlot _ _ _ h)
  · exact Or.inr (Or.inl (ups_sub_ids_optListSlot _ ups_sub_ids_normalizeButton _ _ _ h))
  · exact Or.inr (Or.inr (Or.inl (ups_sub_ids_optListSlot _ ups_sub_ids_normalizeAction _ _ _ h)))
  · exact Or.inr (Or.inr (Or.inr (Or.inl (ups_sub_ids_optListSlot _ ups_sub_ids_normalizeAction _ _ _ h))))
  · exact Or.inr (Or.inr (Or.inr (Or.inr (ups_sub_ids_navSlot _ _ _ h))))

/-! ### Characterization of the registry after a parseConfig call -/

theorem mem_keysOf_parseConfig {kappa : Type} (st : TemplateState kappa) (c : RawConfig kappa)
    (k : String) :
    k ∈ keysOf (parseConfig st c).1.pressableCallbacks ↔
      k ∈ keysOf (parseConfigCore st.counter c).ups ∨
        (k ∈ (parseConfigCore st.counter c).callbackIds ∧
          k ∈ keysOf st.pressableCallbacks) := by
  simp only [parseConfig]
  rw [mem_keysOf_filter_includes, mem_keysOf_upsertAll, includesId_eq_true_iff]
  constructor
  · rintro ⟨ha, hb | hb⟩
    · exact Or.inr ⟨ha, hb⟩
    · exact Or.inl hb
  · rintro (h | ⟨ha, hb⟩)
    · exact ⟨ups_sub_ids_core _ _ _ h, Or.inr h⟩
    · exact ⟨ha, Or.inl hb⟩

theorem handleButtonPressed_eq_lookupId {kappa : Type} (st : TemplateState kappa)
    (e : ButtonPressedEvent) :
    handleButtonPressed st e = lookupId st.pressableCallbacks e.buttonId := by
  unfold handleButtonPressed
  cases lookupId st.pressableCallbacks e.buttonId <;> rfl

/-! ### The walk strips every callback from well-formed nodes -/

theorem onPress_out_normalizeAction {kappa : Type} (n : Nat) (a : AndroidAction kappa)
    (h : wellFormedAction a = true) : (normalizeAction n a).out.onPress = none := by
  obtain ⟨idf, op, pl⟩ := a
  cases idf with
  | none => cases op <;> simp [normalizeAction]
  | some oi =>
    cases oi with
    | none => simp [wellFormedAction] at h
    | some i => cases op <;> simp [normalizeAction]

theorem onPress_out_normalizeButton {kappa : Type} (n : Nat) (b : AndroidAction kappa) :
    (normalizeButton n b).out.onPress = none := by
  obtain ⟨idf, op, pl⟩ := b
  cases op with
  | none =>
    cases idf with
    | none => simp [normalizeButton]
    | some oi => cases oi <;> simp [normalizeButton]
  | some f =>
    cases idf with
    | none => simp [normalizeButton]
    | some oi => cases oi <;> simp [normalizeButton]

theorem onPress_out_normalizeNavigateAction {kappa : Type} (n : Nat) (a : AndroidAction kappa)
    (x : AndroidAction kappa) (hx : (normalizeNavigateAction n a).out = some x) :
    x.onPress = none := by
  obtain ⟨idf, op, pl⟩ := a
  cases idf with
  | none =>
    cases op with
    | none => simp [normalizeNavigateAction] at hx; rw [← hx]
    | some f => simp [normalizeNavigateAction] at hx; rw [← hx]
  | some oi =>
    cases oi with
    | none => simp [normalizeNavigateAction] at hx
    | some i =>
      cases op with
      | none => simp [normalizeNavigateAction] at hx; rw [← hx]
      | some f => simp [normalizeNavigateAction] at hx; rw [← hx]

theorem callbackFreeList_normalizeList {kappa : Type}
    (f : Nat → AndroidAction kappa → SlotOut (AndroidAction kappa) kappa)
    (hf : ∀ n a, wellFormedAction a = true → (f n a).out.onPress = none) :
    ∀ (n : Nat) (l : List (AndroidAction kappa)), l.all wellFormedAction = true →
      callbackFreeList (normalizeList f n l).out = true := by
  intro n l
  induction l generalizing n with
  | nil => intro h; simp [normalizeList, callbackFreeList]
  | cons a as ih =>
    intro h
    simp only [List.all_cons, Bool.and_eq_true] at h
    simp only [normalizeList, callbackFreeList, List.all_cons, Bool.and_eq_true]
    refine ⟨?_, ih _ h.2⟩
    simp [hf n a h.1]

theorem callbackFreeKey_optListSlot {kappa : Type}
    (f : Nat → AndroidAction kappa → SlotOut (AndroidAction kappa) kappa)
    (hf : ∀ n a, wellFormedAction a = true → (f n a).out.onPress = none)
    (n : Nat) (ol : Option (List (AndroidAction kappa))) (h : wellFormedOptList ol = true) :
    callbackFreeKey ((optListSlot f n ol).out.map some) = true := by
  cases ol with
  | none => simp [optListSlot, callbackFreeKey]
  | some l =>
    simp only [wellFormedOptList] at h
    simp only [optListSlot, Option.map]
    exact callbackFreeList_normalizeList f hf n l h

theorem cleanCallbackFree_parseConfigCore {kappa : Type} (n : Nat) (c : RawConfig kappa)
    (h : wellFormedConfig c = true) : cleanCallbackFree (parseConfigCore n c).clean = true := by
  simp only [wellFormedConfig, Bool.and_eq_true] at h
  obtain ⟨⟨⟨⟨hact, hmap⟩, hnav⟩, hpane⟩, hbtn⟩ := h
  simp only [parseConfigCore, cleanCallbackFree, Bool.and_eq_true]
  refine ⟨⟨⟨⟨?_, ?_⟩, ?_⟩, ?_⟩, ?_⟩
  · exact callbackFreeKey_optListSlot normalizeAction
      (fun n a ha => onPress_out_normalizeAction n a ha) _ c.actions hact
  · exact callbackFreeKey_optListSlot normalizeAction
      (fun n a ha => onPress_out_normalizeAction n a ha) _ c.mapButtons hmap
  · cases hc : c.navigateAction with
    | none => simp [navSlot]
    | some a =>
      simp only [navSlot]
      cases hx : (normalizeNavigateAction _ a).out with
      | none => simp [hx]
      | some x =>
        simp only [hx, Option.map]
        simp [onPress_out_normalizeNavigateAction _ a x hx]
  · cases hc : c.pane with
    | none => simp [paneSlot]
    | some p =>
      have hpane2 : wellFormedOptList p.actions = true := by
        rw [hc] at hpane
        simpa using hpane
      cases hpa : p.actions with
      | none => simp [paneSlot, hpa]
      | some acts =>
        rw [hpa] at hpane2
        simp only [wellFormedOptList] at hpane2
        simp only [paneSlot, hpa]
        simpa using callbackFreeList_normalizeList normalizeAction
          (fun n a ha => onPress_out_normalizeAction n a ha) n acts hpane2
  · cases hc : c.buttons with
    | none => simp [optListSlot, callbackFreeKey]
    | some l =>
      rw [hc] at hbtn
      simp only [wellFormedOptList] at hbtn
      simp only [optListSlot, Option.map]
      exact callbackFreeList_normalizeList normalizeButton
        (fun n a _ => onPress_out_normalizeButton n a) _ l hbtn

/-! ### Walks over configurations whose nodes all carry explicit identifiers
consume no generated identifier and preserve every id field -/

theorem idFieldsOfKey_some {kappa : Type} (x : Option (List (AndroidAction kappa))) :
    idFieldsOfKey (some x) = idFieldsOfOpt x := by
  cases x <;> rfl

theorem idFieldsOfKey_map_some {kappa : Type} (x : Option (List (AndroidAction kappa))) :
    idFieldsOfKey (Option.map some x) = idFieldsOfOpt x := by
  cases x <;> rfl

theorem paneFieldsOfKey_some {kappa : Type} (x : Option (PaneOut kappa)) :
    paneFieldsOfKey (some x) = paneFieldsOfOut x := by
  cases x <;> rfl

theorem navFieldsOfKey_map_some {kappa : Type} (x : Option (AndroidAction kappa)) :
    navFieldsOfKey (Option.map some x) = navFieldsOfOut x := by
  cases x <;> rfl

theorem explicit_normalizeAction {kappa : Type} (n : Nat) (a : AndroidAction kappa)
    (h : actionExplicitId a = true) :
    (normalizeAction n a).counter = n ∧ (normalizeAction n a).out.idField = a.idField := by
  obtain ⟨idf, op, pl⟩ := a
  cases idf with
  | none => simp [actionExplicitId] at h
  | some oi =>
    cases oi with
    | none => simp [actionExplicitId] at h
    | some i => cases op <;> simp [normalizeAction]

theorem explicit_normalizeButton {kappa : Type} (n : Nat) (b : AndroidAction kappa)
    (h : actionExplicitId b = true) :
    (normalizeButton n b).counter = n ∧ (normalizeButton n b).out.idField = b.idField := by
  obtain ⟨idf, op, pl⟩ := b
  cases idf with
  | none => simp [actionExplicitId] at h
  | some oi =>
    cases oi with
    | none => simp [actionExplicitId] at h
    | some i => cases op <;> simp [normalizeButton]

theorem explicit_normalizeList {kappa : Type}
    (f : Nat → AndroidAction kappa → SlotOut (AndroidAction kappa) kappa)
    (hf : ∀ (n : Nat) (a : AndroidAction kappa), actionExplicitId a = true →
      (f n a).counter = n ∧ (f n a).out.idField = a.idField) :
    ∀ (n : Nat) (l : List (AndroidAction kappa)), l.all actionExplicitId = true →
      (normalizeList f n l).counter = n ∧
        idFieldsOfList (normalizeList f n l).out = idFieldsOfList l := by
  intro n l
  induction l generalizing n with
  | nil => intro h; simp [normalizeList, idFieldsOfList]
  | cons a as ih =>
    intro h
    simp only [List.all_cons, Bool.and_eq_true] at h
    obtain ⟨hc1, hi1⟩ := hf n a h.1
    obtain ⟨hcs, his⟩ := ih (f n a).counter h.2
    constructor
    · simp only [normalizeList]
      rw [hcs, hc1]
    · simp only [normalizeList, idFieldsOfList, List.map_cons]
      rw [hi1]
      simp only [idFieldsOfList] at his
      rw [his]

theorem explicit_optListSlot {kappa : Type}
    (f : Nat → AndroidAction kappa → SlotOut (AndroidAction kappa) kappa)
    (hf : ∀ (n : Nat) (a : AndroidAction kappa), actionExplicitId a = true →
      (f n a).counter = n ∧ (f n a).out.idField = a.idField)
    (n : Nat) (ol : Option (List (AndroidAction kappa))) (h : explicitOptList ol = true) :
    (optListSlot f n ol).counter = n ∧
      idFieldsOfOpt (optListSlot f n ol).out = idFieldsOfOpt ol := by
  cases ol with
  | none => simp [optListSlot, idFieldsOfOpt]
  | some l =>
    simp only [explicitOptList] at h
    obtain ⟨hc, hi⟩ := explicit_normalizeList f hf n l h
    exact ⟨hc, by simpa [optListSlot, idFieldsOfOpt] using hi⟩

theorem explicit_paneSlot {kappa : Type} (n : Nat) (op : Option (RawPane kappa))
    (h : (match op with | none => true | some p => explicitOptList p.actions) = true) :
    (paneSlot n op).counter = n ∧
      paneFieldsOfOut (paneSlot n op).out = paneFieldsOfRaw op := by
  cases op with
  | none => simp [paneSlot, paneFieldsOfOut, paneFieldsOfRaw]
  | some p =>
    simp only at h
    cases hpa : p.actions with
    | none => simp [paneSlot, hpa, paneFieldsOfOut, paneFieldsOfRaw, idFieldsOfOpt]
    | some acts =>
      rw [hpa] at h
      simp only [explicitOptList] at h
      obtain ⟨hc, hi⟩ := explicit_normalizeList normalizeAction explicit_normalizeAction n acts h
      refine ⟨by simpa [paneSlot, hpa] using hc, ?_⟩
      simpa [paneSlot, hpa, paneFieldsOfOut, paneFieldsOfRaw, idFieldsOfOpt] using hi

theorem explicit_navSlot {kappa : Type} (n : Nat) (oa : Option (AndroidAction kappa))
    (h : (match oa with | none => true | some a => actionExplicitId a) = true) :
    (navSlot n oa).counter = n ∧
      navFieldsOfOut (navSlot n oa).out = navFieldsOfRaw oa := by
  cases oa with
  | none => simp [navSlot, navFieldsOfOut, navFieldsOfRaw]
  | some a =>
    simp only at h
    obtain ⟨idf, op, pl⟩ := a
    cases idf with
    | none => simp [actionExplicitId] at h
    | some oi =>
      cases oi with
      | none => simp [actionExplicitId] at h
      | some i =>
        cases op <;> simp [navSlot, normalizeNavigateAction, navFieldsOfOut, navFieldsOfRaw]

theorem explicit_core {kappa : Type} (n : Nat) (c : RawConfig kappa)
    (h : allExplicitIds c = true) :
    (parseConfigCore n c).counter = n ∧
      cleanIdFields (parseConfigCore n c).clean = rawIdFields c := by
  simp only [allExplicitIds, Bool.and_eq_true] at h
  obtain ⟨⟨⟨⟨hp, hb⟩, ha⟩, hm2⟩, hn2⟩ := h
  obtain ⟨hpc, hpi⟩ := explicit_paneSlot n c.pane hp
  obtain ⟨hbc, hbi⟩ := explicit_optListSlot normalizeButton explicit_normalizeButton
    (paneSlot n c.pane).counter c.buttons hb
  obtain ⟨hac, hai⟩ := explicit_optListSlot normalizeAction explicit_normalizeAction
    (optListSlot normalizeButton (paneSlot n c.pane).counter c.buttons).counter c.actions ha
  obtain ⟨hmc, hmi⟩ := explicit_optListSlot normalizeAction explicit_normalizeAction
    (optListSlot normalizeAction
      (optListSlot normalizeButton (paneSlot n c.pane).counter c.buttons).counter
        c.actions).counter c.mapButtons hm2
  obtain ⟨hnc, hni⟩ := explicit_navSlot
    (optListSlot normalizeAction
      (optListSlot normalizeAction
        (optListSlot normalizeButton (paneSlot n c.pane).counter c.buttons).counter
          c.actions).counter c.mapButtons).counter c.navigateAction hn2
  constructor
  · simp only [parseConfigCore]
    rw [hnc, hmc, hac, hbc, hpc]
  · simp only [parseConfigCore, cleanIdFields, rawIdFields, idFieldsOfKey_some,
      idFieldsOfKey_map_some, paneFieldsOfKey_some, navFieldsOfKey_map_some]
    rw [hpi, hbi, hai, hmi, hni]

/-! ### Claim theorems -/

/-- Claim C5: for every buttonPressed event whose buttonId is not a key of
the registry, the dispatch handler invokes no callback (it returns without
invoking anything); the handler is a total function, so no error is raised:
the event is dropped silently. -/
theorem handleButtonPressed_miss_is_silent {kappa : Type} (st : TemplateState kappa)
    (e : ButtonPressedEvent) (h : e.buttonId ∉ keysOf st.pressableCallbacks) :
    handleButtonPressed st e = none := by
  rw [handleButtonPressed_eq_lookupId]
  revert h
  induction st.pressableCallbacks with
  | nil => intro h; rfl
  | cons p ps ih =>
    intro h
    rw [keysOf_cons, List.mem_cons] at h
    push_neg at h
    simp only [lookupId]
    rw [if_neg (fun hh => h.1 hh.symm)]
    exact ih h.2

/-- Witness for C5: a concrete event whose id is absent from a concrete
registry is dropped. -/
theorem handleButtonPressed_miss_is_silent_witness :
    handleButtonPressed (⟨0, [("a", 1)]⟩ : TemplateState Nat) ⟨some "t", "b"⟩ = none :=
  handleButtonPressed_miss_is_silent ⟨0, [("a", 1)]⟩ ⟨some "t", "b"⟩ (by decide)

/-- Claim C9: the buttonPressed handler destructures only buttonId from the
event, so its behavior is identical for any two events sharing a buttonId,
whatever their templateId fields (present, absent, or different): an event
addressed to a different template still fires a matching registered
callback. -/
theorem handleButtonPressed_ignores_templateId {kappa : Type} (st : TemplateState kappa)
    (e1 e2 : ButtonPressedEvent) (h : e1.buttonId = e2.buttonId) :
    handleButtonPressed st e1 = handleButtonPressed st e2 := by
  rw [handleButtonPressed_eq_lookupId, handleButtonPressed_eq_lookupId, h]

/-- Witness for C9: two concrete events with distinct templateId fields (one
absent) and one registry produce the same invocation. -/
theorem handleButtonPressed_ignores_templateId_witness :
    handleButtonPressed (⟨0, [("x", 4)]⟩ : TemplateState Nat) ⟨some "other", "x"⟩ =
      handleButtonPressed (⟨0, [("x", 4)]⟩ : TemplateState Nat) ⟨none, "x"⟩ :=
  handleButtonPressed_ignores_templateId ⟨0, [("x", 4)]⟩ ⟨some "other", "x"⟩ ⟨none, "x"⟩ rfl

theorem filter_includes_nil {kappa : Type} (r : List (String × kappa)) :
    r.filter (fun p => includesId [] p.1) = [] := by
  induction r with
  | nil => rfl
  | cons p ps ih => simp [List.filter_cons, includesId, ih]

/-- Claim C8: parseConfig on a configuration with none of the five
interactive slots yields a clean configuration with no actions, mapButtons
or navigateAction key at all (the pane and buttons keys are present with
undefined values), leaves the registry empty (the prune against an empty
callbackIds list removes every entry), and generates no identifier (the
counter is unchanged); in particular an absent navigateAction never causes
an identifier to be generated. -/
theorem parseConfig_empty_config {kappa : Type} (st : TemplateState kappa) (c : RawConfig kappa)
    (hA : c.actions = none) (hM : c.mapButtons = none) (hN : c.navigateAction = none)
    (hP : c.pane = none) (hB : c.buttons = none) :
    parseConfig st c =
      (⟨st.counter, []⟩, ⟨none, none, none, some none, some none, c.rest⟩) := by
  simp [parseConfig, parseConfigCore, hA, hM, hN, hP, hB, paneSlot, optListSlot, navSlot,
    Template.parseConfig, upsertAll, filter_includes_nil]

/-- Witness for C8: the concrete empty configuration, from a nonempty
registry and a nonzero counter. -/
theorem parseConfig_empty_config_witness :
    parseConfig (⟨3, [("a", 5)]⟩ : TemplateState Nat) ⟨none, none, none, none, none, 9⟩ =
      (⟨3, []⟩, ⟨none, none, none, some none, some none, 9⟩) :=
  parseConfig_empty_config ⟨3, [("a", 5)]⟩ ⟨none, none, none, none, none, 9⟩
    rfl rfl rfl rfl rfl

/-- Claim C10: the clean configuration always contains the pane and buttons
keys (the object literal writes them unconditionally), bound to an undefined
value when the corresponding input field is absent, whereas absent actions,
mapButtons and navigateAction fields produce no corresponding key at all,
those keys being written only inside their conditionals. -/
theorem parseConfig_key_presence {kappa : Type} (st : TemplateState kappa)
    (c : RawConfig kappa) :
    (c.pane = none → (parseConfig st c).2.paneKey = some none) ∧
      (c.buttons = none → (parseConfig st c).2.buttonsKey = some none) ∧
      (c.actions = none → (parseConfig st c).2.actionsKey = none) ∧
      (c.mapButtons = none → (parseConfig st c).2.mapButtonsKey = none) ∧
      (c.navigateAction = none → (parseConfig st c).2.navigateActionKey = none) := by
  refine ⟨fun h => ?_, fun h => ?_, fun h => ?_, fun h => ?_, fun h => ?_⟩ <;>
    simp [parseConfig, parseConfigCore, Template.parseConfig, h, paneSlot, optListSlot, navSlot]

/-- Witness for C10: all five implications discharged at a concrete
configuration with every slot absent. -/
theorem parseConfig_key_presence_witness :
    (parseConfig (⟨0, []⟩ : TemplateState Nat) ⟨none, none, none, none, none, 0⟩).2.paneKey =
        some none ∧
      (parseConfig (⟨0, []⟩ : TemplateState Nat)
          ⟨none, none, none, none, none, 0⟩).2.buttonsKey = some none ∧
      (parseConfig (⟨0, []⟩ : TemplateState Nat)
          ⟨none, none, none, none, none, 0⟩).2.actionsKey = none ∧
      (parseConfig (⟨0, []⟩ : TemplateState Nat)
          ⟨none, none, none, none, none, 0⟩).2.mapButtonsKey = none ∧
      (parseConfig (⟨0, []⟩ : TemplateState Nat)
          ⟨none, none, none, none, none, 0⟩).2.navigateActionKey = none := by
  obtain ⟨h1, h2, h3, h4, h5⟩ :=
    parseConfig_key_presence (⟨0, []⟩ : TemplateState Nat) ⟨none, none, none, none, none, 0⟩
  exact ⟨h1 rfl, h2 rfl, h3 rfl, h4 rfl, h5 rfl⟩

theorem lookupId_filter_upsert_single {kappa : Type} (r : List (String × kappa))
    (i : String) (v : kappa) :
    lookupId ((upsertAll r [(i, v)]).filter (fun p => includesId [i] p.1)) i = some v := by
  have hin : includesId [i] i = true := by simp [includesId]
  rw [lookupId_filter_includes _ _ _ hin]
  simp only [upsertAll]
  rw [lookupId_upsert]
  simp

/-- Claim C4: after parseConfig registers onPress f1 under the explicit id
x and a second parseConfig call registers onPress f2 under the same id, a
buttonPressed event carrying x invokes f2 and never f1: the second upsert
overwrites the first in place, and the walk raises no error (parseConfig is
total). -/
theorem parseConfig_second_upsert_overwrites {kappa : Type} (st : TemplateState kappa)
    (f1 f2 : kappa) (e : ButtonPressedEvent) (h1 : f1 ≠ f2) (h2 : e.buttonId = "x") :
    handleButtonPressed
        (parseConfig
          (parseConfig st
            ⟨some [⟨some (some "x"), some f1, 0⟩], none, none, none, none, 0⟩).1
          ⟨some [⟨some (some "x"), some f2, 0⟩], none, none, none, none, 0⟩).1 e = some f2 ∧
      handleButtonPressed
        (parseConfig
          (parseConfig st
            ⟨some [⟨some (some "x"), some f1, 0⟩], none, none, none, none, 0⟩).1
          ⟨some [⟨some (some "x"), some f2, 0⟩], none, none, none, none, 0⟩).1 e ≠ some f1 := by
  have key : handleButtonPressed
      (parseConfig
        (parseConfig st
          ⟨some [⟨some (some "x"), some f1, 0⟩], none, none, none, none, 0⟩).1
        ⟨some [⟨some (some "x"), some f2, 0⟩], none, none, none, none, 0⟩).1 e = some f2 := by
    rw [handleButtonPressed_eq_lookupId, h2]
    conv_lhs =>
      rw [parseConfig]
    simp only [parseConfigCore, paneSlot, optListSlot, navSlot, normalizeList, normalizeAction,
      List.nil_append, List.append_nil]
    exact lookupId_filter_upsert_single _ "x" f2
  refine ⟨key, ?_⟩
  rw [key]
  intro hcontra
  exact h1 (Option.some.inj hcontra).symm

/-- Witness for C4: concrete distinct callbacks 1 and 2 at id x; the event
fires 2. -/
theorem parseConfig_second_upsert_overwrites_witness :
    handleButtonPressed
        (parseConfig
          (parseConfig (⟨0, []⟩ : TemplateState Nat)
            ⟨some [⟨some (some "x"), some 1, 0⟩], none, none, none, none, 0⟩).1
          ⟨some [⟨some (some "x"), some 2, 0⟩], none, none, none, none, 0⟩).1
        ⟨some "t", "x"⟩ = some 2 ∧
      handleButtonPressed
        (parseConfig
          (parseConfig (⟨0, []⟩ : TemplateState Nat)
            ⟨some [⟨some (some "x"), some 1, 0⟩], none, none, none, none, 0⟩).1
          ⟨some [⟨some (some "x"), some 2, 0⟩], none, none, none, none, 0⟩).1
        ⟨some "t", "x"⟩ ≠ some 1 :=
  parseConfig_second_upsert_overwrites ⟨0, []⟩ 1 2 ⟨some "t", "x"⟩ (by decide) rfl

theorem lookupId_filter_upsert_pair {kappa : Type} (r : List (String × kappa))
    (i : String) (f g : kappa) :
    lookupId ((upsertAll r [(i, f), (i, g)]).filter
      (fun p => includesId [i, i] p.1)) i = some g := by
  have hin : includesId [i, i] i = true := by simp [includesId]
  rw [lookupId_filter_includes _ _ _ hin]
  simp only [upsertAll]
  rw [lookupId_upsert]
  simp

/-- Claim C7: when two distinct callback-bearing nodes of one configuration
share an explicit identifier (here one in actions, processed first, and one
in mapButtons, processed second), parseConfig raises no error (it is total)
and the registry afterwards holds exactly the callback of the
later-processed node: the earlier callback has been overwritten
(last-write-wins). -/
theorem parseConfig_explicit_id_collision_last_wins {kappa : Type}
    (st : TemplateState kappa) (i : String) (f g : kappa) (p q r : Nat) :
    lookupId (parseConfig st
        ⟨some [⟨some (some i), some f, p⟩], some [⟨some (some i), some g, q⟩],
          none, none, none, r⟩).1.pressableCallbacks i = some g ∧
      (f ≠ g →
        lookupId (parseConfig st
          ⟨some [⟨some (some i), some f, p⟩], some [⟨some (some i), some g, q⟩],
            none, none, none, r⟩).1.pressableCallbacks i ≠ some f) := by
  have key : lookupId (parseConfig st
      ⟨some [⟨some (some i), some f, p⟩], some [⟨some (some i), some g, q⟩],
        none, none, none, r⟩).1.pressableCallbacks i = some g := by
    conv_lhs => rw [parseConfig]
    simp only [parseConfigCore, paneSlot, optListSlot, navSlot, normalizeList, normalizeAction,
      List.nil_append, List.append_nil, List.cons_append]
    exact lookupId_filter_upsert_pair _ i f g
  refine ⟨key, fun hfg => ?_⟩
  rw [key]
  intro hcontra
  exact hfg (Option.some.inj hcontra).symm

/-- Witness for C7: a concrete collision at id i with callbacks 1 and 2; the
registry resolves i to 2 and not to 1. -/
theorem parseConfig_explicit_id_collision_last_wins_witness :
    lookupId (parseConfig (⟨0, []⟩ : TemplateState Nat)
        ⟨some [⟨some (some "i"), some 1, 0⟩], some [⟨some (some "i"), some 2, 0⟩],
          none, none, none, 0⟩).1.pressableCallbacks "i" = some 2 ∧
      lookupId (parseConfig (⟨0, []⟩ : TemplateState Nat)
        ⟨some [⟨some (some "i"), some 1, 0⟩], some [⟨some (some "i"), some 2, 0⟩],
          none, none, none, 0⟩).1.pressableCallbacks "i" ≠ some 1 := by
  obtain ⟨h1, h2⟩ := parseConfig_explicit_id_collision_last_wins
    (⟨0, []⟩ : TemplateState Nat) "i" 1 2 0 0 0
  exact ⟨h1, h2 (by decide)⟩

theorem getCallbackActionId_ne_empty (n : Nat) : getCallbackActionId n ≠ "" := by
  intro h
  have hl := congrArg String.length h
  rw [getCallbackActionId, String.length_append] at hl
  have h2 : "cb".length = 2 := rfl
  have h0 : "".length = 0 := rfl
  rw [h2, h0] at hl
  omega

/-- Claim C1 counterexample: configuring a single button with neither id nor
onPress yields a clean output whose unique button descriptor is the input
button unchanged; its id field list is the singleton none, so the descriptor
carries no identifier at all, let alone a freshly generated one. -/
theorem parseConfig_button_no_id_keeps_no_identifier_cex :
    (parseConfig (⟨0, []⟩ : TemplateState Nat)
        ⟨none, none, none, none, some [⟨none, none, 0⟩], 0⟩).2.buttonsKey =
      some (some [⟨none, none, 0⟩]) ∧
    idFieldsOfKey (parseConfig (⟨0, []⟩ : TemplateState Nat)
        ⟨none, none, none, none, some [⟨none, none, 0⟩], 0⟩).2.buttonsKey = [none] := by
  exact ⟨rfl, rfl⟩

/-- Claim C1 (amended): for a buttons list holding one button with neither
id nor onPress, the clean configuration contains exactly that one button
descriptor, returned unchanged and carrying no identifier; a fresh non-empty
identifier is generated (the counter advances by one) and recorded in the
walk's alive-id list, but it is not written into the descriptor and no
registry entry is created for it. -/
theorem parseConfig_button_no_id_no_callback {kappa : Type} (st : TemplateState kappa)
    (p r : Nat) :
    (parseConfig st ⟨none, none, none, none, some [⟨none, none, p⟩], r⟩).2.buttonsKey =
        some (some [⟨none, none, p⟩]) ∧
      (parseConfig st ⟨none, none, none, none, some [⟨none, none, p⟩], r⟩).1.counter =
        st.counter + 1 ∧
      getCallbackActionId st.counter ∈
        (parseConfigCore st.counter
          (⟨none, none, none, none, some [⟨none, none, p⟩], r⟩ : RawConfig kappa)).callbackIds ∧
      getCallbackActionId st.counter ≠ "" ∧
      (parseConfigCore st.counter
        (⟨none, none, none, none, some [⟨none, none, p⟩], r⟩ : RawConfig kappa)).ups = [] := by
  refine ⟨?_, ?_, ?_, getCallbackActionId_ne_empty st.counter, ?_⟩ <;>
    simp [parseConfig, parseConfigCore, Template.parseConfig, paneSlot, optListSlot, navSlot,
      normalizeList, normalizeButton]

/-- Claim C2 counterexample: after configuring the explicit id a with a
callback and then reconfiguring with a node that carries the same id but no
callback, the registry still holds the stale entry for a, although the
latest call's walk performed no registry write at all (its ups list is
empty, so no identifier of the latest clean configuration originated from a
callback-bearing node). -/
theorem parseConfig_registry_retains_stale_callback_cex :
    (parseConfig (parseConfig (⟨0, []⟩ : TemplateState Nat)
        ⟨some [⟨some (some "a"), some 1, 0⟩], none, none, none, none, 0⟩).1
      ⟨some [⟨some (some "a"), none, 0⟩], none, none, none, none, 0⟩).1.pressableCallbacks =
      [("a", 1)] ∧
    (parseConfigCore 0
      (⟨some [⟨some (some "a"), none, 0⟩], none, none, none, none, 0⟩ :
        RawConfig Nat)).ups = [] ∧
    (parseConfig (⟨0, []⟩ : TemplateState Nat)
        ⟨some [⟨some (some "a"), some 1, 0⟩], none, none, none, none, 0⟩).1.counter = 0 := by
  exact ⟨rfl, rfl, rfl⟩

/-- Claim C2 (amended): after each parseConfig call, a string is a key of
the registry exactly when it is the identifier of a callback-bearing node of
that call (a key of the walk's registry writes), or it was already a
registry key and occurs among that call's callbackIds, which list the
identifiers of all identified nodes of the latest call, callback-bearing or
not.  In particular a key never outlives the disappearance of its identifier
from the configuration, but a previously registered callback does survive
when a callback-free node of the latest call reuses its identifier. -/
theorem parseConfig_registry_keys_exact {kappa : Type} (st : TemplateState kappa)
    (c : RawConfig kappa) (k : String) :
    k ∈ keysOf (parseConfig st c).1.pressableCallbacks ↔
      k ∈ keysOf (parseConfigCore st.counter c).ups ∨
        (k ∈ (parseConfigCore st.counter c).callbackIds ∧
          k ∈ keysOf st.pressableCallbacks) :=
  mem_keysOf_parseConfig st c k

/-- Claim C3: on a well-formed configuration (presence of an id key implies
a string value, which holds of every configuration expressible in the
TypeScript types), the clean configuration returned by parseConfig carries
no onPress callback anywhere in its five slots, and every identifier under
which the walk recorded a callback is a key of the registry afterwards. -/
theorem parseConfig_strips_and_registers_callbacks {kappa : Type} (st : TemplateState kappa)
    (c : RawConfig kappa) (h : wellFormedConfig c = true) :
    cleanCallbackFree (parseConfig st c).2 = true ∧
      ∀ k, k ∈ keysOf (parseConfigCore st.counter c).ups →
        k ∈ keysOf (parseConfig st c).1.pressableCallbacks := by
  constructor
  · have hcf := cleanCallbackFree_parseConfigCore st.counter c h
    simpa [parseConfig, Template.parseConfig] using hcf
  · intro k hk
    rw [mem_keysOf_parseConfig]
    exact Or.inl hk

/-- Witness for C3: a concrete configuration with one callback-bearing
action at id a; the clean output is callback-free and a is a registry key. -/
theorem parseConfig_strips_and_registers_callbacks_witness :
    cleanCallbackFree (parseConfig (⟨0, []⟩ : TemplateState Nat)
        ⟨some [⟨some (some "a"), some 5, 0⟩], none, none, none, none, 0⟩).2 = true ∧
      "a" ∈ keysOf (parseConfig (⟨0, []⟩ : TemplateState Nat)
        ⟨some [⟨some (some "a"), some 5, 0⟩], none, none, none, none, 0⟩).1.pressableCallbacks := by
  obtain ⟨h1, h2⟩ := parseConfig_strips_and_registers_callbacks (⟨0, []⟩ : TemplateState Nat)
    ⟨some [⟨some (some "a"), some 5, 0⟩], none, none, none, none, 0⟩ (by decide)
  exact ⟨h1, h2 "a" (by decide)⟩

/-- Claim C6: when every interactive node of the configuration carries an
explicit identifier, no generated identifier is consumed, so running
parseConfig a second time on the same original input (from the state left by
the first run) yields a structurally equal clean configuration, and the id
fields of the clean configuration are exactly the id fields of the input, in
processing order: no explicit identifier is changed. -/
theorem parseConfig_stable_under_explicit_ids {kappa : Type} (st : TemplateState kappa)
    (c : RawConfig kappa) (h : allExplicitIds c = true) :
    (parseConfig (parseConfig st c).1 c).2 = (parseConfig st c).2 ∧
      cleanIdFields (parseConfig st c).2 = rawIdFields c := by
  obtain ⟨hc, hi⟩ := explicit_core st.counter c h
  constructor
  · simp only [parseConfig]
    rw [hc]
  · simp only [parseConfig, Template.parseConfig]
    exact hi

/-- Witness for C6: a concrete configuration with explicit ids in all five
slots; running twice gives the same clean output and the id fields are
preserved. -/
theorem parseConfig_stable_under_explicit_ids_witness :
    (parseConfig (parseConfig (⟨0, []⟩ : TemplateState Nat)
          ⟨some [⟨some (some "a"), some 1, 0⟩], some [⟨some (some "m"), none, 0⟩],
            some ⟨some (some "n"), some 2, 0⟩, some ⟨some [⟨some (some "p"), some 3, 0⟩], 4⟩,
            some [⟨some (some "b"), some 4, 0⟩], 5⟩).1
        ⟨some [⟨some (some "a"), some 1, 0⟩], some [⟨some (some "m"), none, 0⟩],
          some ⟨some (some "n"), some 2, 0⟩, some ⟨some [⟨some (some "p"), some 3, 0⟩], 4⟩,
          some [⟨some (some "b"), some 4, 0⟩], 5⟩).2 =
      (parseConfig (⟨0, []⟩ : TemplateState Nat)
        ⟨some [⟨some (some "a"), some 1, 0⟩], some [⟨some (some "m"), none, 0⟩],
          some ⟨some (some "n"), some 2, 0⟩, some ⟨some [⟨some (some "p"), some 3, 0⟩], 4⟩,
          some [⟨some (some "b"), some 4, 0⟩], 5⟩).2 ∧
    cleanIdFields (parseConfig (⟨0, []⟩ : TemplateState Nat)
        ⟨some [⟨some (some "a"), some 1, 0⟩], some [⟨some (some "m"), none, 0⟩],
          some ⟨some (some "n"), some 2, 0⟩, some ⟨some [⟨some (some "p"), some 3, 0⟩], 4⟩,
          some [⟨some (some "b"), some 4, 0⟩], 5⟩).2 =
      rawIdFields (⟨some [⟨some (some "a"), some 1, 0⟩], some [⟨some (some "m"), none, 0⟩],
          some ⟨some (some "n"), some 2, 0⟩, some ⟨some [⟨some (some "p"), some 3, 0⟩], 4⟩,
          some [⟨some (some "b"), some 4, 0⟩], 5⟩ : RawConfig Nat) :=
  parseConfig_stable_under_explicit_ids (⟨0, []⟩ : TemplateState Nat)
    ⟨some [⟨some (some "a"), some 1, 0⟩], some [⟨some (some "m"), none, 0⟩],
      some ⟨some (some "n"), some 2, 0⟩, some ⟨some [⟨some (some "p"), some 3, 0⟩], 4⟩,
      some [⟨some (some "b"), some 4, 0⟩], 5⟩ (by decide)

/-- Witness for C1 (amended): the concrete one-button configuration from a
fresh template state. -/
theorem parseConfig_button_no_id_no_callback_witness :
    (parseConfig (⟨0, []⟩ : TemplateState Nat)
        ⟨none, none, none, none, some [⟨none, none, 0⟩], 0⟩).2.buttonsKey =
        some (some [⟨none, none, 0⟩]) ∧
      (parseConfig (⟨0, []⟩ : TemplateState Nat)
        ⟨none, none, none, none, some [⟨none, none, 0⟩], 0⟩).1.counter = 0 + 1 ∧
      getCallbackActionId 0 ∈
        (parseConfigCore 0
          (⟨none, none, none, none, some [⟨none, none, 0⟩], 0⟩ : RawConfig Nat)).callbackIds ∧
      getCallbackActionId 0 ≠ "" ∧
      (parseConfigCore 0
        (⟨none, none, none, none, some [⟨none, none, 0⟩], 0⟩ : RawConfig Nat)).ups = [] :=
  parseConfig_button_no_id_no_callback (⟨0, []⟩ : TemplateState Nat) 0 0

/-- Witness for C2 (amended): the characterization instantiated at the
stale-callback scenario, resolving that a is still a key after the second
call. -/
theorem parseConfig_registry_keys_exact_witness :
    "a" ∈ keysOf (parseConfig (parseConfig (⟨0, []⟩ : TemplateState Nat)
        ⟨some [⟨some (some "a"), some 1, 0⟩], none, none, none, none, 0⟩).1
      ⟨some [⟨some (some "a"), none, 0⟩], none, none, none, none, 0⟩).1.pressableCallbacks :=
  (parseConfig_registry_keys_exact
      (parseConfig (⟨0, []⟩ : TemplateState Nat)
        ⟨some [⟨some (some "a"), some 1, 0⟩], none, none, none, none, 0⟩).1
      ⟨some [⟨some (some "a"), none, 0⟩], none, none, none, none, 0⟩ "a").mpr
    (Or.inr ⟨by decide, by decide⟩)
